import Mathlib

/-!
Shallow embedding of `callHome.py` (class `NetconfRUClient`).

The ncclient session is modelled as a test double (`Transport`): each kind of
request the client can submit (`get`, `edit_config`, `dispatch`) is a function
from the request payload to `some responseXml`, or `none` when the library call
raises a transport error.  `self.session` is `Option Transport` (`none` models
the Python value None).  Each method is a function returning an `Outcome`: the Python
return value, the ordered list of transport requests submitted during the call,
and the exception propagated to the caller, if any.  Numeric method parameters
(bandwidths, frequencies, gains, offsets) are modelled by their rendered decimal
text, which is exactly how the source consumes them (f-string interpolation).
Printing and appending responses to the log file are side effects outside the
claims and are not modelled.
-/

/-- A NETCONF request submitted on the session: a `get` with a filter payload,
an `edit_config` with a target datastore and a config payload, or a raw
`dispatch` of an RPC payload. -/
inductive Request where
  | get (filterPayload : String)
  | editConfig (target : String) (config : String)
  | dispatch (rpc : String)
deriving Repr, BEq

/-- Test double for the ncclient session.  Each operation maps the submitted
payload to `some responseXml`, or `none` when the underlying call raises
(transport error). -/
structure Transport where
  getResp : String → Option String
  editConfigResp : String → Option String
  dispatchResp : String → Option String

/-- Python exceptions relevant to the claims.  `typeError` is the Python built-in
`TypeError` (raised e.g. by `x in None`).  `connectionError` and
`notConnectedError` are the error classes named in the error taxonomy of the specification; no such classes exist in the source, they appear here only so that
claims about them can be stated. -/
inductive PyError where
  | typeError
  | connectionError
  | notConnectedError
deriving Repr, DecidableEq

/-- Result of one method call: the Python return value, the transport requests
submitted during the call (in order), and the exception propagated to the
caller, if any. -/
structure Outcome (α : Type) where
  ret : α
  sent : List Request
  raised : Option PyError
deriving Repr

/-- Boolean prefix test on character lists (`==` on `Char`). -/
def startsWithChars : List Char → List Char → Bool
  | [], _ => true
  | _ :: _, [] => false
  | a :: ps, b :: ls => a == b && startsWithChars ps ls

/-- Boolean infix (contiguous-sublist) test on character lists. -/
def hasSubChars (pat : List Char) : List Char → Bool
  | [] => startsWithChars pat []
  | b :: ls => startsWithChars pat (b :: ls) || hasSubChars pat ls

/-- Embeds the Python substring containment test `pat in s`. -/
def strContains (s pat : String) : Bool := hasSubChars pat.data s.data

/-- The f-string fragment `<name>{name}</name>` used both in payloads and in
the substring presence checks of the source. -/
def name_tag (name : String) : String := "<name>" ++ name ++ "</name>"

/-- Embeds `connect` (`callHome.py` lines 20–35).  The transport-level attempt is
`some session` when `manager.connect` succeeds and `none` when it raises.  On
success `self.session` is set; on failure the `except` branch prints the error
and sets `self.session = None` — no exception propagates.  `ret` is the
resulting `self.session`. -/
def connect (attempt : Option Transport) : Outcome (Option Transport) :=
  match attempt with
  | some t => { ret := some t, sent := [], raised := none }
  | none => { ret := none, sent := [], raised := none }

/-- The filter payload of `check_supervision_status` (lines 91–95). -/
def supervision_filter : String :=
  "
        <filter xmlns=\"urn:ietf:params:xml:ns:netconf:base:1.0\">
          <supervision-status xmlns=\"urn:o-ran:supervision:1.0\"/>
        </filter>
        "

/-- Embeds `check_supervision_status` (lines 82–115).  With no session it prints and
returns `None`.  Otherwise it issues a `get`; on transport error the `except`
branch returns `None`.  On a response it returns `"unsupervised"` when the
unsupervised tag is a substring, else `"supervised"` when the supervised tag is
a substring, else `"unsupervised"`. -/
def check_supervision_status (session : Option Transport) : Outcome (Option String) :=
  match session with
  | none => { ret := none, sent := [], raised := none }
  | some t =>
    match t.getResp supervision_filter with
    | none => { ret := none, sent := [Request.get supervision_filter], raised := none }
    | some xml_str =>
      if strContains xml_str "<supervision-status>unsupervised</supervision-status>" then
        { ret := some "unsupervised", sent := [Request.get supervision_filter], raised := none }
      else if strContains xml_str "<supervision-status>supervised</supervision-status>" then
        { ret := some "supervised", sent := [Request.get supervision_filter], raised := none }
      else
        { ret := some "unsupervised", sent := [Request.get supervision_filter], raised := none }

/-- The RPC payload built by `reset_supervision_watchdog` (lines 155–174): an
`ElementTree` document with hard-coded interval text `"60000"` and overhead
text `"5"`, serialised by `ET.tostring(..., encoding="utf-8")` (which prepends
an XML declaration) and decoded. -/
def watchdog_reset_rpc : String :=
  "<?xml version=\x271.0\x27 encoding=\x27utf-8\x27?>\n<rpc xmlns=\"urn:ietf:params:xml:ns:netconf:base:1.0\" message-id=\"1\"><supervision-watchdog-reset xmlns=\"urn:o-ran:supervision:1.0\"><supervision-notification-interval>60000</supervision-notification-interval><guard-timer-overhead>5</guard-timer-overhead></supervision-watchdog-reset></rpc>"

/-- Embeds `reset_supervision_watchdog` (lines 147–190).  With no session it prints
and returns.  Otherwise it dispatches the fixed watchdog-reset RPC; transport
errors are caught and yield `None`. -/
def reset_supervision_watchdog (session : Option Transport) : Outcome (Option String) :=
  match session with
  | none => { ret := none, sent := [], raised := none }
  | some t =>
    match t.dispatchResp watchdog_reset_rpc with
    | some xml => { ret := some xml, sent := [Request.dispatch watchdog_reset_rpc], raised := none }
    | none => { ret := none, sent := [Request.dispatch watchdog_reset_rpc], raised := none }

/-- The filter payload of `retrieve_tx_array_carrier_info` (lines 272–278). -/
def tx_array_carrier_filter : String :=
  "
        <filter xmlns=\"urn:ietf:params:xml:ns:netconf:base:1.0\">
          <user-plane-configuration xmlns=\"urn:o-ran:uplane-conf:1.0\">
            <tx-array-carriers/>
          </user-plane-configuration>
        </filter>
        "

/-- The filter payload of `retrieve_rx_array_carrier_info` (lines 299–305). -/
def rx_array_carrier_filter : String :=
  "
        <filter xmlns=\"urn:ietf:params:xml:ns:netconf:base:1.0\">
          <user-plane-configuration xmlns=\"urn:o-ran:uplane-conf:1.0\">
            <rx-array-carriers/>
          </user-plane-configuration>
        </filter>
        "

/-- Embeds `retrieve_tx_array_carrier_info` (lines 263–288): `get` with the TX filter;
returns the response XML string, or `None` with no session or on transport
error. -/
def retrieve_tx_array_carrier_info (session : Option Transport) : Outcome (Option String) :=
  match session with
  | none => { ret := none, sent := [], raised := none }
  | some t =>
    match t.getResp tx_array_carrier_filter with
    | some xml => { ret := some xml, sent := [Request.get tx_array_carrier_filter], raised := none }
    | none => { ret := none, sent := [Request.get tx_array_carrier_filter], raised := none }

/-- Embeds `retrieve_rx_array_carrier_info` (lines 290–315): `get` with the RX filter;
returns the response XML string, or `None` with no session or on transport
error. -/
def retrieve_rx_array_carrier_info (session : Option Transport) : Outcome (Option String) :=
  match session with
  | none => { ret := none, sent := [], raised := none }
  | some t =>
    match t.getResp rx_array_carrier_filter with
    | some xml => { ret := some xml, sent := [Request.get rx_array_carrier_filter], raised := none }
    | none => { ret := none, sent := [Request.get rx_array_carrier_filter], raised := none }

/-- The create payload of `configure_tx_array_carrier` (lines 332–347); the
interpolated fields are the parameters of the method. -/
def tx_carrier_config_payload (name cocb afc cbw gain : String) : String :=
  "
        <config xmlns=\"urn:ietf:params:xml:ns:netconf:base:1.0\">
          <user-plane-configuration xmlns=\"urn:o-ran:uplane-conf:1.0\">
            <tx-array-carriers>
              " ++ name_tag name ++ "
              <center-of-channel-bandwidth>" ++ cocb ++ "</center-of-channel-bandwidth>
              <absolute-frequency-center>" ++ afc ++ "</absolute-frequency-center>
              <channel-bandwidth>" ++ cbw ++ "</channel-bandwidth>
              <type>NR</type>
              <gain>" ++ gain ++ "</gain>
              <downlink-radio-frame-offset>0</downlink-radio-frame-offset>
              <downlink-sfn-offset>0</downlink-sfn-offset>
            </tx-array-carriers>
          </user-plane-configuration>
        </config>
        "

/-- The create payload of `configure_rx_array_carrier` (lines 375–391). -/
def rx_carrier_config_payload (name cocb afc cbw gain_correction n_ta_offset : String) : String :=
  "
        <config xmlns=\"urn:ietf:params:xml:ns:netconf:base:1.0\">
          <user-plane-configuration xmlns=\"urn:o-ran:uplane-conf:1.0\">
            <rx-array-carriers>
              " ++ name_tag name ++ "
              <center-of-channel-bandwidth>" ++ cocb ++ "</center-of-channel-bandwidth>
              <absolute-frequency-center>" ++ afc ++ "</absolute-frequency-center>
              <channel-bandwidth>" ++ cbw ++ "</channel-bandwidth>
              <type>NR</type>
              <downlink-radio-frame-offset>0</downlink-radio-frame-offset>
              <downlink-sfn-offset>0</downlink-sfn-offset>
              <gain-correction>" ++ gain_correction ++ "</gain-correction>
              <n-ta-offset>" ++ n_ta_offset ++ "</n-ta-offset>
            </rx-array-carriers>
          </user-plane-configuration>
        </config>
        "

/-- Embeds `configure_tx_array_carrier` (lines 317–358).  With no session: print and
return.  Otherwise it calls `retrieve_tx_array_carrier_info`; the membership
test `f"<name>{name}</name>" in tx_info` sits outside any `try`, so when the
retrieval returned `None` Python raises an uncaught `TypeError`.  When the name
is found, print "already exists" and return (no create).  Otherwise submit the
create `edit_config`; its transport errors are caught and yield `None`. -/
def configure_tx_array_carrier (session : Option Transport)
    (name cocb afc cbw gain : String) : Outcome (Option String) :=
  match session with
  | none => { ret := none, sent := [], raised := none }
  | some t =>
    let info := retrieve_tx_array_carrier_info (some t)
    match info.ret with
    | none => { ret := none, sent := info.sent, raised := some PyError.typeError }
    | some tx_info =>
      if strContains tx_info (name_tag name) then
        { ret := none, sent := info.sent, raised := none }
      else
        let payload := tx_carrier_config_payload name cocb afc cbw gain
        match t.editConfigResp payload with
        | some xml =>
          { ret := some xml, sent := info.sent ++ [Request.editConfig "running" payload],
            raised := none }
        | none =>
          { ret := none, sent := info.sent ++ [Request.editConfig "running" payload],
            raised := none }

/-- Embeds `configure_rx_array_carrier` (lines 360–402), mirroring the TX variant. -/
def configure_rx_array_carrier (session : Option Transport)
    (name cocb afc cbw gain_correction n_ta_offset : String) : Outcome (Option String) :=
  match session with
  | none => { ret := none, sent := [], raised := none }
  | some t =>
    let info := retrieve_rx_array_carrier_info (some t)
    match info.ret with
    | none => { ret := none, sent := info.sent, raised := some PyError.typeError }
    | some rx_info =>
      if strContains rx_info (name_tag name) then
        { ret := none, sent := info.sent, raised := none }
      else
        let payload := rx_carrier_config_payload name cocb afc cbw gain_correction n_ta_offset
        match t.editConfigResp payload with
        | some xml =>
          { ret := some xml, sent := info.sent ++ [Request.editConfig "running" payload],
            raised := none }
        | none =>
          { ret := none, sent := info.sent ++ [Request.editConfig "running" payload],
            raised := none }

/-- The delete payload of `delete_tx_array_carrier` (lines 413–429). -/
def tx_carrier_delete_payload (name cocb afc cbw gain : String) : String :=
  "
        <config xmlns=\"urn:ietf:params:xml:ns:netconf:base:1.0\">
          <user-plane-configuration xmlns=\"urn:o-ran:uplane-conf:1.0\">
            <tx-array-carriers nc:operation=\"delete\"
              xmlns:nc=\"urn:ietf:params:xml:ns:netconf:base:1.0\">
              " ++ name_tag name ++ "
              <center-of-channel-bandwidth>" ++ cocb ++ "</center-of-channel-bandwidth>
              <absolute-frequency-center>" ++ afc ++ "</absolute-frequency-center>
              <channel-bandwidth>" ++ cbw ++ "</channel-bandwidth>
              <type>NR</type>
              <gain>" ++ gain ++ "</gain>
              <downlink-radio-frame-offset>0</downlink-radio-frame-offset>
              <downlink-sfn-offset>0</downlink-sfn-offset>
            </tx-array-carriers>
          </user-plane-configuration>
        </config>
        "

/-- The delete payload of `delete_rx_array_carrier` (lines 451–469). -/
def rx_carrier_delete_payload (name cocb afc cbw gain_correction n_ta_offset : String) : String :=
  "
        <config xmlns=\"urn:ietf:params:xml:ns:netconf:base:1.0\">
          <user-plane-configuration xmlns=\"urn:o-ran:uplane-conf:1.0\">
            <rx-array-carriers nc:operation=\"delete\"
              xmlns:nc=\"urn:ietf:params:xml:ns:netconf:base:1.0\">
              " ++ name_tag name ++ "
              <center-of-channel-bandwidth>" ++ cocb ++ "</center-of-channel-bandwidth>
              <absolute-frequency-center>" ++ afc ++ "</absolute-frequency-center>
              <channel-bandwidth>" ++ cbw ++ "</channel-bandwidth>
              <type>NR</type>
              <downlink-radio-frame-offset>0</downlink-radio-frame-offset>
              <downlink-sfn-offset>0</downlink-sfn-offset>
              <gain-correction>" ++ gain_correction ++ "</gain-correction>
              <n-ta-offset>" ++ n_ta_offset ++ "</n-ta-offset>
              <active>INACTIVE</active>
            </rx-array-carriers>
          </user-plane-configuration>
        </config>
        "

/-- Embeds `delete_tx_array_carrier` (lines 404–440).  With no session: print and
return.  Otherwise it submits the delete `edit_config` directly — there is no
presence check and no read of any kind before the delete. -/
def delete_tx_array_carrier (session : Option Transport)
    (name cocb afc cbw gain : String) : Outcome (Option String) :=
  match session with
  | none => { ret := none, sent := [], raised := none }
  | some t =>
    let payload := tx_carrier_delete_payload name cocb afc cbw gain
    match t.editConfigResp payload with
    | some xml =>
      { ret := some xml, sent := [Request.editConfig "running" payload], raised := none }
    | none =>
      { ret := none, sent := [Request.editConfig "running" payload], raised := none }

/-- Embeds `delete_rx_array_carrier` (lines 442–480), mirroring the TX variant. -/
def delete_rx_array_carrier (session : Option Transport)
    (name cocb afc cbw gain_correction n_ta_offset : String) : Outcome (Option String) :=
  match session with
  | none => { ret := none, sent := [], raised := none }
  | some t =>
    let payload := rx_carrier_delete_payload name cocb afc cbw gain_correction n_ta_offset
    match t.editConfigResp payload with
    | some xml =>
      { ret := some xml, sent := [Request.editConfig "running" payload], raised := none }
    | none =>
      { ret := none, sent := [Request.editConfig "running" payload], raised := none }

/-- The filter payload of `retrieve_carrier_status` (lines 510–523). -/
def carrier_status_filter (tx_name rx_name : String) : String :=
  "
        <filter xmlns=\"urn:ietf:params:xml:ns:netconf:base:1.0\">
          <user-plane-configuration xmlns=\"urn:o-ran:uplane-conf:1.0\">
            <tx-array-carriers>
              " ++ name_tag tx_name ++ "
              <active/>
            </tx-array-carriers>
            <rx-array-carriers>
              " ++ name_tag rx_name ++ "
              <active/>
            </rx-array-carriers>
          </user-plane-configuration>
        </filter>
        "

/-- Embeds `retrieve_carrier_status` (lines 501–543).  With no session or on transport
error it returns `(None, None)`.  Otherwise each side is reported `"ACTIVE"`
when its name tag is a substring of the response AND the literal
`<active>ACTIVE</active>` is a substring anywhere, else `"INACTIVE"`. -/
def retrieve_carrier_status (session : Option Transport) (tx_name rx_name : String) :
    Outcome (Option String × Option String) :=
  match session with
  | none => { ret := (none, none), sent := [], raised := none }
  | some t =>
    match t.getResp (carrier_status_filter tx_name rx_name) with
    | none =>
      { ret := (none, none), sent := [Request.get (carrier_status_filter tx_name rx_name)],
        raised := none }
    | some xml_str =>
      let tx_active :=
        if strContains xml_str (name_tag tx_name) && strContains xml_str "<active>ACTIVE</active>"
        then "ACTIVE" else "INACTIVE"
      let rx_active :=
        if strContains xml_str (name_tag rx_name) && strContains xml_str "<active>ACTIVE</active>"
        then "ACTIVE" else "INACTIVE"
      { ret := (some tx_active, some rx_active),
        sent := [Request.get (carrier_status_filter tx_name rx_name)], raised := none }

/-- The activation payload of `activate_carriers` (lines 562–575): one
`edit_config` body holding both carriers with target state `ACTIVE`. -/
def carriers_activate_payload (tx_name rx_name : String) : String :=
  "
        <config xmlns=\"urn:ietf:params:xml:ns:netconf:base:1.0\">
          <user-plane-configuration xmlns=\"urn:o-ran:uplane-conf:1.0\">
            <tx-array-carriers>
              " ++ name_tag tx_name ++ "
              <active>ACTIVE</active>
            </tx-array-carriers>
            <rx-array-carriers>
              " ++ name_tag rx_name ++ "
              <active>ACTIVE</active>
            </rx-array-carriers>
          </user-plane-configuration>
        </config>
        "

/-- The deactivation payload of `deactivate_carriers` (lines 605–618). -/
def carriers_deactivate_payload (tx_name rx_name : String) : String :=
  "
        <config xmlns=\"urn:ietf:params:xml:ns:netconf:base:1.0\">
          <user-plane-configuration xmlns=\"urn:o-ran:uplane-conf:1.0\">
            <tx-array-carriers>
              " ++ name_tag tx_name ++ "
              <active>INACTIVE</active>
            </tx-array-carriers>
            <rx-array-carriers>
              " ++ name_tag rx_name ++ "
              <active>INACTIVE</active>
            </rx-array-carriers>
          </user-plane-configuration>
        </config>
        "

/-- Embeds `activate_carriers` (lines 545–586).  With no session: print and return.
Otherwise it first calls `retrieve_carrier_status`; if both sides report
`"ACTIVE"` it prints and returns without any `edit_config`.  Otherwise it
submits the single combined activation `edit_config`; transport errors are
caught and yield `None`. -/
def activate_carriers (session : Option Transport) (tx_name rx_name : String) :
    Outcome (Option String) :=
  match session with
  | none => { ret := none, sent := [], raised := none }
  | some t =>
    let st := retrieve_carrier_status (some t) tx_name rx_name
    if st.ret.1 == some "ACTIVE" && st.ret.2 == some "ACTIVE" then
      { ret := none, sent := st.sent, raised := none }
    else
      let payload := carriers_activate_payload tx_name rx_name
      match t.editConfigResp payload with
      | some xml =>
        { ret := some xml, sent := st.sent ++ [Request.editConfig "running" payload],
          raised := none }
      | none =>
        { ret := none, sent := st.sent ++ [Request.editConfig "running" payload],
          raised := none }

/-- Embeds `deactivate_carriers` (lines 588–629), mirroring `activate_carriers` with
target state `INACTIVE`. -/
def deactivate_carriers (session : Option Transport) (tx_name rx_name : String) :
    Outcome (Option String) :=
  match session with
  | none => { ret := none, sent := [], raised := none }
  | some t =>
    let st := retrieve_carrier_status (some t) tx_name rx_name
    if st.ret.1 == some "INACTIVE" && st.ret.2 == some "INACTIVE" then
      { ret := none, sent := st.sent, raised := none }
    else
      let payload := carriers_deactivate_payload tx_name rx_name
      match t.editConfigResp payload with
      | some xml =>
        { ret := some xml, sent := st.sent ++ [Request.editConfig "running" payload],
          raised := none }
      | none =>
        { ret := none, sent := st.sent ++ [Request.editConfig "running" payload],
          raised := none }

/-- Is this request an `edit_config`? -/
def Request.isEditConfig : Request → Bool
  | .editConfig _ _ => true
  | _ => false

/-- Is this request a `get`? -/
def Request.isGet : Request → Bool
  | .get _ => true
  | _ => false

/-- The `edit_config` requests among a sent list, in order. -/
def editConfigsSent (l : List Request) : List Request := l.filter Request.isEditConfig

/-- The `get` requests among a sent list, in order. -/
def getsSent (l : List Request) : List Request := l.filter Request.isGet

/-- Modelled from the spec: the `WatchdogConfig` value object
(notification-interval, guard-timer-overhead) that §4.2 says each
watchdog-reset RPC must carry; `reset_supervision_watchdog` in the source takes
no such configuration. -/
structure WatchdogConfig where
  notification_interval : Nat
  guard_timer_overhead : Nat

/-- The interval field a watchdog-reset payload would carry for `cfg`. -/
def interval_field (cfg : WatchdogConfig) : String :=
  "<supervision-notification-interval>" ++ toString cfg.notification_interval ++
    "</supervision-notification-interval>"

/-- The guard-timer-overhead field a watchdog-reset payload would carry for `cfg`. -/
def overhead_field (cfg : WatchdogConfig) : String :=
  "<guard-timer-overhead>" ++ toString cfg.guard_timer_overhead ++ "</guard-timer-overhead>"

theorem startsWithChars_append (p t : List Char) : startsWithChars p (p ++ t) = true := by
  induction p with
  | nil => rfl
  | cons a ps ih => simp [startsWithChars, ih]

theorem startsWithChars_mono (p l t : List Char) (h : startsWithChars p l = true) :
    startsWithChars p (l ++ t) = true := by
  induction p generalizing l with
  | nil => rfl
  | cons a ps ih =>
    cases l with
    | nil => simp [startsWithChars] at h
    | cons b ls =>
      simp [startsWithChars] at h ⊢
      exact ⟨h.1, ih ls h.2⟩

theorem hasSubChars_of_prefix (p l : List Char) (h : startsWithChars p l = true) :
    hasSubChars p l = true := by
  cases l with
  | nil => simpa [hasSubChars] using h
  | cons b ls => simp [hasSubChars, h]

theorem hasSubChars_append_right (p a b : List Char) (h : hasSubChars p b = true) :
    hasSubChars p (a ++ b) = true := by
  induction a with
  | nil => exact h
  | cons c cs ih => simp [hasSubChars, ih]

theorem hasSubChars_append_left (p a b : List Char) (h : hasSubChars p a = true) :
    hasSubChars p (a ++ b) = true := by
  induction a with
  | nil =>
    cases p with
    | nil => exact hasSubChars_of_prefix _ _ rfl
    | cons x ps => simp [hasSubChars, startsWithChars] at h
  | cons c cs ih =>
    simp only [hasSubChars, Bool.or_eq_true] at h ⊢
    rcases h with h | h
    · exact Or.inl (startsWithChars_mono _ _ _ h)
    · exact Or.inr (ih h)

theorem string_data_append (a b : String) : (a ++ b).data = a.data ++ b.data := rfl

theorem strContains_refl (p : String) : strContains p p = true :=
  hasSubChars_of_prefix _ _ (by simpa using startsWithChars_append p.data [])

theorem strContains_append_left (a b pat : String) (h : strContains a pat = true) :
    strContains (a ++ b) pat = true := by
  unfold strContains at h ⊢
  rw [string_data_append]
  exact hasSubChars_append_left _ _ _ h

theorem strContains_append_right (a b pat : String) (h : strContains b pat = true) :
    strContains (a ++ b) pat = true := by
  unfold strContains at h ⊢
  rw [string_data_append]
  exact hasSubChars_append_right _ _ _ h

theorem strContains_parts (l1 x l2 y l3 : String) :
    strContains (l1 ++ x ++ l2 ++ y ++ l3) x = true ∧
    strContains (l1 ++ x ++ l2 ++ y ++ l3) y = true := by
  constructor
  · apply strContains_append_left
    apply strContains_append_left
    apply strContains_append_left
    exact strContains_append_right _ _ _ (strContains_refl x)
  · apply strContains_append_left
    exact strContains_append_right _ _ _ (strContains_refl y)

theorem retrieve_carrier_status_sent_some (t : Transport) (tx rx : String) :
    (retrieve_carrier_status (some t) tx rx).sent = [Request.get (carrier_status_filter tx rx)] := by
  cases h : t.getResp (carrier_status_filter tx rx) <;>
    simp [retrieve_carrier_status, h]

theorem editConfigsSent_get (f : String) : editConfigsSent [Request.get f] = [] := rfl

theorem editConfigsSent_get_edit (f tg c : String) :
    editConfigsSent [Request.get f, Request.editConfig tg c] = [Request.editConfig tg c] := rfl

theorem activate_carriers_sent_cases (t : Transport) (tx rx : String) :
    (activate_carriers (some t) tx rx).sent = [Request.get (carrier_status_filter tx rx)] ∨
    (activate_carriers (some t) tx rx).sent =
      [Request.get (carrier_status_filter tx rx),
        Request.editConfig "running" (carriers_activate_payload tx rx)] := by
  have hs := retrieve_carrier_status_sent_some t tx rx
  simp only [activate_carriers]
  split
  · exact Or.inl hs
  · cases he : t.editConfigResp (carriers_activate_payload tx rx) <;> simp [he, hs]

theorem deactivate_carriers_sent_cases (t : Transport) (tx rx : String) :
    (deactivate_carriers (some t) tx rx).sent = [Request.get (carrier_status_filter tx rx)] ∨
    (deactivate_carriers (some t) tx rx).sent =
      [Request.get (carrier_status_filter tx rx),
        Request.editConfig "running" (carriers_deactivate_payload tx rx)] := by
  have hs := retrieve_carrier_status_sent_some t tx rx
  simp only [deactivate_carriers]
  split
  · exact Or.inl hs
  · cases he : t.editConfigResp (carriers_deactivate_payload tx rx) <;> simp [he, hs]

/-- C1: for every pair of carrier names, `activate_carriers` and
`deactivate_carriers` submit the TX and the RX activation-state change in one
single combined `edit_config` RPC whose payload contains both carrier name
tags: the requests each call sends contain either zero `edit_config` requests
(the already-matching no-op) or exactly one, whose payload contains
`<name>txName</name>` and `<name>rxName</name>` — never two separate
`edit_config` RPCs. -/
theorem activate_deactivate_pair_single_rpc (t : Transport) (tx_name rx_name : String) :
    (editConfigsSent (activate_carriers (some t) tx_name rx_name).sent = [] ∨
      (editConfigsSent (activate_carriers (some t) tx_name rx_name).sent =
          [Request.editConfig "running" (carriers_activate_payload tx_name rx_name)] ∧
        strContains (carriers_activate_payload tx_name rx_name) (name_tag tx_name) = true ∧
        strContains (carriers_activate_payload tx_name rx_name) (name_tag rx_name) = true)) ∧
    (editConfigsSent (deactivate_carriers (some t) tx_name rx_name).sent = [] ∨
      (editConfigsSent (deactivate_carriers (some t) tx_name rx_name).sent =
          [Request.editConfig "running" (carriers_deactivate_payload tx_name rx_name)] ∧
        strContains (carriers_deactivate_payload tx_name rx_name) (name_tag tx_name) = true ∧
        strContains (carriers_deactivate_payload tx_name rx_name) (name_tag rx_name) = true)) := by
  constructor
  · rcases activate_carriers_sent_cases t tx_name rx_name with h | h
    · exact Or.inl (by rw [h]; exact editConfigsSent_get _)
    · refine Or.inr ⟨by rw [h]; exact editConfigsSent_get_edit _ _ _, ?_, ?_⟩
      · exact (strContains_parts _ _ _ _ _).1
      · exact (strContains_parts _ _ _ _ _).2
  · rcases deactivate_carriers_sent_cases t tx_name rx_name with h | h
    · exact Or.inl (by rw [h]; exact editConfigsSent_get _)
    · refine Or.inr ⟨by rw [h]; exact editConfigsSent_get_edit _ _ _, ?_, ?_⟩
      · exact (strContains_parts _ _ _ _ _).1
      · exact (strContains_parts _ _ _ _ _).2

/-- C3: `activate_carriers` (resp. `deactivate_carriers`) first queries the
current TX/RX activation status, and when both sides already equal the target
state — both `"ACTIVE"` for activation, both `"INACTIVE"` for deactivation —
the call sends only that status `get` and no `edit_config` RPC. -/
theorem activate_deactivate_noop_when_target (t : Transport) (tx_name rx_name : String) :
    ((retrieve_carrier_status (some t) tx_name rx_name).ret = (some "ACTIVE", some "ACTIVE") →
      (activate_carriers (some t) tx_name rx_name).sent =
        [Request.get (carrier_status_filter tx_name rx_name)] ∧
      editConfigsSent (activate_carriers (some t) tx_name rx_name).sent = []) ∧
    ((retrieve_carrier_status (some t) tx_name rx_name).ret = (some "INACTIVE", some "INACTIVE") →
      (deactivate_carriers (some t) tx_name rx_name).sent =
        [Request.get (carrier_status_filter tx_name rx_name)] ∧
      editConfigsSent (deactivate_carriers (some t) tx_name rx_name).sent = []) := by
  have hs := retrieve_carrier_status_sent_some t tx_name rx_name
  constructor
  · intro h
    have he : (activate_carriers (some t) tx_name rx_name).sent =
        [Request.get (carrier_status_filter tx_name rx_name)] := by
      simp only [activate_carriers]
      rw [h]
      simp [hs]
    exact ⟨he, by rw [he]; exact editConfigsSent_get _⟩
  · intro h
    have he : (deactivate_carriers (some t) tx_name rx_name).sent =
        [Request.get (carrier_status_filter tx_name rx_name)] := by
      simp only [deactivate_carriers]
      rw [h]
      simp [hs]
    exact ⟨he, by rw [he]; exact editConfigsSent_get _⟩

/-- Witness transport for the already-ACTIVE no-op: every `get` answers with a
response in which both carrier name tags and `<active>ACTIVE</active>` occur. -/
def tBothActive : Transport :=
  ⟨fun _ => some "<name>t0</name><active>ACTIVE</active><name>r0</name>",
    fun _ => some "<ok/>", fun _ => some "<ok/>"⟩

/-- Witness transport whose `get` responses contain no carrier data at all, so
both sides report `"INACTIVE"`. -/
def tBothInactive : Transport :=
  ⟨fun _ => some "<data/>", fun _ => some "<ok/>", fun _ => some "<ok/>"⟩

theorem activate_deactivate_noop_when_target_witness :
    (activate_carriers (some tBothActive) "t0" "r0").sent =
      [Request.get (carrier_status_filter "t0" "r0")] ∧
    (deactivate_carriers (some tBothInactive) "t0" "r0").sent =
      [Request.get (carrier_status_filter "t0" "r0")] :=
  ⟨((activate_deactivate_noop_when_target tBothActive "t0" "r0").1 (by decide)).1,
    ((activate_deactivate_noop_when_target tBothInactive "t0" "r0").2 (by decide)).1⟩

theorem retrieve_tx_info_eq (t : Transport) (xml : String)
    (h : t.getResp tx_array_carrier_filter = some xml) :
    retrieve_tx_array_carrier_info (some t) =
      { ret := some xml, sent := [Request.get tx_array_carrier_filter], raised := none } := by
  simp [retrieve_tx_array_carrier_info, h]

theorem retrieve_rx_info_eq (t : Transport) (xml : String)
    (h : t.getResp rx_array_carrier_filter = some xml) :
    retrieve_rx_array_carrier_info (some t) =
      { ret := some xml, sent := [Request.get rx_array_carrier_filter], raised := none } := by
  simp [retrieve_rx_array_carrier_info, h]

/-- C2: `configure_tx_array_carrier` / `configure_rx_array_carrier` is an
idempotent create.  It first reads the current carriers of its direction (the
first request sent is that `get`); when the response already contains
`<name>name</name>` the call stops after that read and sends no `edit_config`;
only when the name is absent does it submit the create `edit_config`, and then
exactly one. -/
theorem configure_carrier_idempotent (t : Transport)
    (name cocb afc cbw gain gain_correction n_ta_offset tx_info rx_info : String)
    (htx : t.getResp tx_array_carrier_filter = some tx_info)
    (hrx : t.getResp rx_array_carrier_filter = some rx_info) :
    ((configure_tx_array_carrier (some t) name cocb afc cbw gain).sent.head? =
        some (Request.get tx_array_carrier_filter)) ∧
    (strContains tx_info (name_tag name) = true →
      (configure_tx_array_carrier (some t) name cocb afc cbw gain).sent =
        [Request.get tx_array_carrier_filter]) ∧
    (strContains tx_info (name_tag name) = false →
      editConfigsSent (configure_tx_array_carrier (some t) name cocb afc cbw gain).sent =
        [Request.editConfig "running" (tx_carrier_config_payload name cocb afc cbw gain)]) ∧
    ((configure_rx_array_carrier (some t) name cocb afc cbw gain_correction n_ta_offset).sent.head? =
        some (Request.get rx_array_carrier_filter)) ∧
    (strContains rx_info (name_tag name) = true →
      (configure_rx_array_carrier (some t) name cocb afc cbw gain_correction n_ta_offset).sent =
        [Request.get rx_array_carrier_filter]) ∧
    (strContains rx_info (name_tag name) = false →
      editConfigsSent
          (configure_rx_array_carrier (some t) name cocb afc cbw gain_correction n_ta_offset).sent =
        [Request.editConfig "running"
          (rx_carrier_config_payload name cocb afc cbw gain_correction n_ta_offset)]) := by
  have hit := retrieve_tx_info_eq t tx_info htx
  have hir := retrieve_rx_info_eq t rx_info hrx
  refine ⟨?_, ?_, ?_, ?_, ?_, ?_⟩
  · cases hname : strContains tx_info (name_tag name)
    · cases he : t.editConfigResp (tx_carrier_config_payload name cocb afc cbw gain) <;>
        simp [configure_tx_array_carrier, hit, hname, he]
    · simp [configure_tx_array_carrier, hit, hname]
  · intro hname
    simp [configure_tx_array_carrier, hit, hname]
  · intro hname
    cases he : t.editConfigResp (tx_carrier_config_payload name cocb afc cbw gain) <;>
      simp [configure_tx_array_carrier, hit, hname, he, editConfigsSent, Request.isEditConfig]
  · cases hname : strContains rx_info (name_tag name)
    · cases he :
          t.editConfigResp (rx_carrier_config_payload name cocb afc cbw gain_correction n_ta_offset) <;>
        simp [configure_rx_array_carrier, hir, hname, he]
    · simp [configure_rx_array_carrier, hir, hname]
  · intro hname
    simp [configure_rx_array_carrier, hir, hname]
  · intro hname
    cases he :
        t.editConfigResp (rx_carrier_config_payload name cocb afc cbw gain_correction n_ta_offset) <;>
      simp [configure_rx_array_carrier, hir, hname, he, editConfigsSent, Request.isEditConfig]

/-- Witness transport for the idempotent create: every `get` answers with a
carrier list containing exactly the carrier named `c0`. -/
def tHasC0 : Transport :=
  ⟨fun _ => some "<name>c0</name>", fun _ => some "<ok/>", fun _ => some "<ok/>"⟩

theorem configure_carrier_idempotent_witness :
    (configure_tx_array_carrier (some tHasC0) "c0" "1" "2" "3" "0.0").sent =
      [Request.get tx_array_carrier_filter] ∧
    editConfigsSent (configure_tx_array_carrier (some tHasC0) "z9" "1" "2" "3" "0.0").sent =
      [Request.editConfig "running" (tx_carrier_config_payload "z9" "1" "2" "3" "0.0")] ∧
    (configure_rx_array_carrier (some tHasC0) "c0" "1" "2" "3" "0.0" "25600").sent =
      [Request.get rx_array_carrier_filter] ∧
    editConfigsSent (configure_rx_array_carrier (some tHasC0) "z9" "1" "2" "3" "0.0" "25600").sent =
      [Request.editConfig "running" (rx_carrier_config_payload "z9" "1" "2" "3" "0.0" "25600")] :=
  ⟨(configure_carrier_idempotent tHasC0 "c0" "1" "2" "3" "0.0" "0.0" "25600"
      "<name>c0</name>" "<name>c0</name>" rfl rfl).2.1 (by decide),
    (configure_carrier_idempotent tHasC0 "z9" "1" "2" "3" "0.0" "0.0" "25600"
      "<name>c0</name>" "<name>c0</name>" rfl rfl).2.2.1 (by decide),
    (configure_carrier_idempotent tHasC0 "c0" "1" "2" "3" "0.0" "0.0" "25600"
      "<name>c0</name>" "<name>c0</name>" rfl rfl).2.2.2.2.1 (by decide),
    (configure_carrier_idempotent tHasC0 "z9" "1" "2" "3" "0.0" "0.0" "25600"
      "<name>c0</name>" "<name>c0</name>" rfl rfl).2.2.2.2.2 (by decide)⟩

/-- C6: given any response, `check_supervision_status` returns one of the two
known literals; it returns `"supervised"` only when the literal supervised tag
occurs in the response text, and any other content — including absence of a
supervision-status element — yields `"unsupervised"`. -/
theorem check_supervision_status_conservative (t : Transport) (xml : String)
    (h : t.getResp supervision_filter = some xml) :
    ((check_supervision_status (some t)).ret = some "unsupervised" ∨
      (check_supervision_status (some t)).ret = some "supervised") ∧
    (strContains xml "<supervision-status>supervised</supervision-status>" = false →
      (check_supervision_status (some t)).ret = some "unsupervised") ∧
    ((check_supervision_status (some t)).ret = some "supervised" →
      strContains xml "<supervision-status>supervised</supervision-status>" = true) := by
  cases h1 : strContains xml "<supervision-status>unsupervised</supervision-status>" <;>
    cases h2 : strContains xml "<supervision-status>supervised</supervision-status>" <;>
    refine ⟨?_, ?_, ?_⟩ <;>
    simp [check_supervision_status, h, h1, h2]

/-- Witness transport answering the supervision query with content that holds
no supervision-status element at all. -/
def tNoStatus : Transport :=
  ⟨fun _ => some "<data/>", fun _ => some "<ok/>", fun _ => some "<ok/>"⟩

theorem check_supervision_status_conservative_witness :
    (check_supervision_status (some tNoStatus)).ret = some "unsupervised" :=
  (check_supervision_status_conservative tNoStatus "<data/>" rfl).2.1 (by decide)

/-- C9: in `retrieve_carrier_status` the two reported activation states are not
independent: whenever the response text contains the TX name tag, the RX name
tag, and the substring `<active>ACTIVE</active>` anywhere at all, the function
reports both carriers `ACTIVE` — a response in which only one carrier is active
is still reported as `(ACTIVE, ACTIVE)`. -/
theorem retrieve_carrier_status_coupled (t : Transport) (tx_name rx_name xml : String)
    (h : t.getResp (carrier_status_filter tx_name rx_name) = some xml)
    (htx : strContains xml (name_tag tx_name) = true)
    (hrx : strContains xml (name_tag rx_name) = true)
    (hact : strContains xml "<active>ACTIVE</active>" = true) :
    (retrieve_carrier_status (some t) tx_name rx_name).ret = (some "ACTIVE", some "ACTIVE") := by
  simp [retrieve_carrier_status, h, htx, hrx, hact]

/-- Witness transport whose status response marks `t0` ACTIVE and `r0`
INACTIVE: the single global `<active>ACTIVE</active>` match still reports both
as ACTIVE. -/
def tMixedStatus : Transport :=
  ⟨fun _ => some "<name>t0</name><active>ACTIVE</active><name>r0</name><active>INACTIVE</active>",
    fun _ => some "<ok/>", fun _ => some "<ok/>"⟩

theorem retrieve_carrier_status_coupled_witness :
    (retrieve_carrier_status (some tMixedStatus) "t0" "r0").ret = (some "ACTIVE", some "ACTIVE") :=
  retrieve_carrier_status_coupled tMixedStatus "t0" "r0"
    "<name>t0</name><active>ACTIVE</active><name>r0</name><active>INACTIVE</active>"
    rfl (by decide) (by decide) (by decide)

/-- C10: when the presence-check read fails (`retrieve_tx_array_carrier_info` /
`retrieve_rx_array_carrier_info` returns `None`, as it does on a transport
error), the membership test `"<name>...</name>" in tx_info` is applied to
`None` and `configure_tx_array_carrier` / `configure_rx_array_carrier`
propagates an uncaught `TypeError` instead of a handled failure; no
`edit_config` is sent. -/
theorem configure_carrier_type_error_on_failed_read (t : Transport)
    (name cocb afc cbw gain gain_correction n_ta_offset : String)
    (htx : t.getResp tx_array_carrier_filter = none)
    (hrx : t.getResp rx_array_carrier_filter = none) :
    ((configure_tx_array_carrier (some t) name cocb afc cbw gain).raised =
        some PyError.typeError ∧
      editConfigsSent (configure_tx_array_carrier (some t) name cocb afc cbw gain).sent = []) ∧
    ((configure_rx_array_carrier (some t) name cocb afc cbw gain_correction n_ta_offset).raised =
        some PyError.typeError ∧
      editConfigsSent
        (configure_rx_array_carrier (some t) name cocb afc cbw gain_correction n_ta_offset).sent =
          []) := by
  have hit : retrieve_tx_array_carrier_info (some t) =
      { ret := none, sent := [Request.get tx_array_carrier_filter], raised := none } := by
    simp [retrieve_tx_array_carrier_info, htx]
  have hir : retrieve_rx_array_carrier_info (some t) =
      { ret := none, sent := [Request.get rx_array_carrier_filter], raised := none } := by
    simp [retrieve_rx_array_carrier_info, hrx]
  constructor
  · constructor <;> simp [configure_tx_array_carrier, hit, editConfigsSent, Request.isEditConfig]
  · constructor <;> simp [configure_rx_array_carrier, hir, editConfigsSent, Request.isEditConfig]

/-- Witness transport on which every request raises a transport error. -/
def tAllFail : Transport := ⟨fun _ => none, fun _ => none, fun _ => none⟩

theorem configure_carrier_type_error_witness :
    (configure_tx_array_carrier (some tAllFail) "c0" "1" "2" "3" "0.0").raised =
        some PyError.typeError ∧
    (configure_rx_array_carrier (some tAllFail) "c0" "1" "2" "3" "0.0" "25600").raised =
        some PyError.typeError :=
  ⟨(configure_carrier_type_error_on_failed_read tAllFail "c0" "1" "2" "3" "0.0" "0.0" "25600"
      rfl rfl).1.1,
    (configure_carrier_type_error_on_failed_read tAllFail "c0" "1" "2" "3" "0.0" "0.0" "25600"
      rfl rfl).2.1⟩

/-- C4 counterexample: deleting a carrier that is absent (the reads of the transport
answer `<data/>`, which does not contain `<name>A</name>`) still submits the
delete `edit_config`, and the call performs no read at all — there is no
presence check. -/
theorem delete_carrier_no_presence_check_cex :
    strContains "<data/>" (name_tag "A") = false ∧
    getsSent (delete_tx_array_carrier (some tBothInactive) "A" "1" "2" "3" "0.0").sent = [] ∧
    editConfigsSent (delete_tx_array_carrier (some tBothInactive) "A" "1" "2" "3" "0.0").sent ≠ [] ∧
    getsSent (delete_rx_array_carrier (some tBothInactive) "A" "1" "2" "3" "0.0" "25600").sent =
      [] ∧
    editConfigsSent
        (delete_rx_array_carrier (some tBothInactive) "A" "1" "2" "3" "0.0" "25600").sent ≠ [] := by
  have htx : editConfigsSent (delete_tx_array_carrier (some tBothInactive) "A" "1" "2" "3"
      "0.0").sent = [Request.editConfig "running" (tx_carrier_delete_payload "A" "1" "2" "3"
      "0.0")] := rfl
  have hrx : editConfigsSent (delete_rx_array_carrier (some tBothInactive) "A" "1" "2" "3" "0.0"
      "25600").sent = [Request.editConfig "running" (rx_carrier_delete_payload "A" "1" "2" "3"
      "0.0" "25600")] := rfl
  refine ⟨by decide, rfl, ?_, rfl, ?_⟩
  · rw [htx]; simp
  · rw [hrx]; simp

/-- C4 amended: `delete_tx_array_carrier` / `delete_rx_array_carrier` performs
no presence check at all — with a live session it unconditionally submits
exactly one delete `edit_config` (carrying the operation-delete marker payload)
and issues no read, for every carrier name, present or absent. -/
theorem delete_carrier_unconditional (t : Transport)
    (name cocb afc cbw gain gain_correction n_ta_offset : String) :
    (delete_tx_array_carrier (some t) name cocb afc cbw gain).sent =
      [Request.editConfig "running" (tx_carrier_delete_payload name cocb afc cbw gain)] ∧
    (delete_rx_array_carrier (some t) name cocb afc cbw gain_correction n_ta_offset).sent =
      [Request.editConfig "running"
        (rx_carrier_delete_payload name cocb afc cbw gain_correction n_ta_offset)] := by
  constructor
  · cases he : t.editConfigResp (tx_carrier_delete_payload name cocb afc cbw gain) <;>
      simp [delete_tx_array_carrier, he]
  · cases he :
        t.editConfigResp (rx_carrier_delete_payload name cocb afc cbw gain_correction n_ta_offset) <;>
      simp [delete_rx_array_carrier, he]

/-- C5 counterexample: with `self.session = None`, `check_supervision_status`
and `configure_tx_array_carrier` send zero requests yet raise nothing — in
particular not the `NotConnectedError` the claim requires; they return `None`
silently. -/
theorem no_session_no_error_cex :
    (check_supervision_status none).sent = [] ∧
    (check_supervision_status none).raised = none ∧
    ¬(check_supervision_status none).raised = some PyError.notConnectedError ∧
    (configure_tx_array_carrier none "c0" "1" "2" "3" "0.0").sent = [] ∧
    (configure_tx_array_carrier none "c0" "1" "2" "3" "0.0").raised = none ∧
    ¬(configure_tx_array_carrier none "c0" "1" "2" "3" "0.0").raised =
        some PyError.notConnectedError := by
  refine ⟨rfl, rfl, ?_, rfl, rfl, ?_⟩ <;> intro hc <;> cases hc

/-- C5 amended: every session-bound operation invoked while `self.session` is
null prints a message and returns early — it sends zero transport requests and
raises no exception (a silent no-op returning `None`), rather than failing fast
with a `NotConnectedError`. -/
theorem no_session_silent_noop (name cocb afc cbw gain gain_correction n_ta_offset
    tx_name rx_name : String) :
    check_supervision_status none = { ret := none, sent := [], raised := none } ∧
    reset_supervision_watchdog none = { ret := none, sent := [], raised := none } ∧
    retrieve_tx_array_carrier_info none = { ret := none, sent := [], raised := none } ∧
    retrieve_rx_array_carrier_info none = { ret := none, sent := [], raised := none } ∧
    configure_tx_array_carrier none name cocb afc cbw gain =
      { ret := none, sent := [], raised := none } ∧
    configure_rx_array_carrier none name cocb afc cbw gain_correction n_ta_offset =
      { ret := none, sent := [], raised := none } ∧
    delete_tx_array_carrier none name cocb afc cbw gain =
      { ret := none, sent := [], raised := none } ∧
    delete_rx_array_carrier none name cocb afc cbw gain_correction n_ta_offset =
      { ret := none, sent := [], raised := none } ∧
    retrieve_carrier_status none tx_name rx_name =
      { ret := (none, none), sent := [], raised := none } ∧
    activate_carriers none tx_name rx_name = { ret := none, sent := [], raised := none } ∧
    deactivate_carriers none tx_name rx_name = { ret := none, sent := [], raised := none } :=
  ⟨rfl, rfl, rfl, rfl, rfl, rfl, rfl, rfl, rfl, rfl, rfl⟩

set_option maxRecDepth 40000 in
/-- C7 counterexample: for the watchdog configuration (interval 30000 ms,
overhead 7), the RPC `reset_supervision_watchdog` dispatches does not carry the
configured values — its payload is the fixed `watchdog_reset_rpc` string, which
contains neither field for that configuration. -/
theorem watchdog_reset_ignores_config_cex :
    (reset_supervision_watchdog (some tBothInactive)).sent =
      [Request.dispatch watchdog_reset_rpc] ∧
    ¬(strContains watchdog_reset_rpc
        (interval_field { notification_interval := 30000, guard_timer_overhead := 7 }) = true ∧
      strContains watchdog_reset_rpc
        (overhead_field { notification_interval := 30000, guard_timer_overhead := 7 }) = true) :=
  ⟨rfl, by decide⟩

set_option maxRecDepth 40000 in
/-- C7 amended: `reset_supervision_watchdog` takes no configuration; every
watchdog-reset RPC it dispatches is the fixed payload whose
supervision-notification-interval field is the hard-coded `60000` and whose
guard-timer-overhead field is the hard-coded `5`, regardless of any caller
configuration. -/
theorem watchdog_reset_fixed_values (t : Transport) :
    (reset_supervision_watchdog (some t)).sent = [Request.dispatch watchdog_reset_rpc] ∧
    strContains watchdog_reset_rpc
      (interval_field { notification_interval := 60000, guard_timer_overhead := 5 }) = true ∧
    strContains watchdog_reset_rpc
      (overhead_field { notification_interval := 60000, guard_timer_overhead := 5 }) = true := by
  refine ⟨?_, by decide, by decide⟩
  cases he : t.dispatchResp watchdog_reset_rpc <;> simp [reset_supervision_watchdog, he]

/-- C8 counterexample: when `manager.connect` raises, `connect` leaves
`self.session` null but swallows the exception — the caller sees a normal
return, not the `ConnectionError` the claim requires. -/
theorem connect_failure_swallowed_cex :
    (connect none).ret = none ∧ (connect none).raised = none ∧
    ¬(connect none).raised = some PyError.connectionError := by
  refine ⟨rfl, rfl, ?_⟩
  intro hc
  cases hc

/-- C8 amended: on a transport-level failure `connect` returns to the
disconnected state with `self.session` left null, but the failure is caught and
printed, not surfaced: the call raises nothing and returns normally (on success
it simply stores the session, likewise raising nothing). -/
theorem connect_failure_silent (attempt : Option Transport) :
    (connect attempt).ret = attempt ∧ (connect attempt).sent = [] ∧
    (connect attempt).raised = none := by
  cases attempt <;> exact ⟨rfl, rfl, rfl⟩
